import Mathlib

/-!
Verification development for the Kenwei AIGC gateway server (`server.js`).

The JavaScript source is shallowly embedded: each relevant server function is
translated into an executable Lean definition.  JavaScript runtime conventions
are made explicit:

* a possibly-absent (`undefined`/`null`) field is an `Option`;
* the `??` (nullish-coalescing) chain over fields is `firstSome`;
* the `||` (truthiness) chain over string fields is `firstTruthy`, since the
  empty string is falsy in JavaScript;
* `String.prototype.toLowerCase` / `trim` are modelled by `strLower` /
  `strTrim` over the character list (the tokens the server compares against
  are ASCII, where the two agree);
* network calls are supplied as oracle values (`Except`, or per-candidate
  attempt lists for the probing loops), and handlers return the effects they
  would perform (upstream calls, usage-ledger appends) as explicit data.
-/

/-! ## JavaScript-semantics helpers -/

/-- JS truthiness for an optional string: `undefined`, `null` and `""` are
falsy. -/
def truthyStr (o : Option String) : Option String :=
  match o with
  | some s => if s = "" then none else some s
  | none => none

/-- First non-nullish value of a field chain, i.e. the JS `a ?? b ?? ...`. -/
def firstSome {α : Type} : List (Option α) → Option α
  | [] => none
  | o :: rest =>
    match o with
    | some x => some x
    | none => firstSome rest

/-- First truthy string of a field chain, i.e. the JS `a || b || ...` over
string-valued fields. -/
def firstTruthy : List (Option String) → Option String
  | [] => none
  | o :: rest =>
    match truthyStr o with
    | some s => some s
    | none => firstTruthy rest

/-- JS `String(x || dflt)` for an optional string `x`. -/
def jsStringOr (o : Option String) (dflt : String) : String :=
  match truthyStr o with
  | some s => s
  | none => dflt

/-- ASCII lowering of one character (what `toLowerCase` does on the ASCII
range, which covers every token the server compares against). -/
def lowerChar (c : Char) : Char :=
  if 'A' ≤ c ∧ c ≤ 'Z' then Char.ofNat (c.toNat + 32) else c

/-- `String.prototype.toLowerCase`, executable for the kernel. -/
def strLower (s : String) : String :=
  ⟨s.data.map lowerChar⟩

/-- `String.prototype.trim`, executable for the kernel. -/
def strTrim (s : String) : String :=
  ⟨((s.data.dropWhile Char.isWhitespace).reverse.dropWhile Char.isWhitespace).reverse⟩

/-- List-level "starts with" on characters. -/
def isPrefixList : List Char → List Char → Bool
  | [], _ => true
  | _ :: _, [] => false
  | a :: as, b :: bs => a == b && isPrefixList as bs

/-- List-level substring occurrence check. -/
def hasSubstr (pat : List Char) : List Char → Bool
  | [] => isPrefixList pat []
  | c :: t => isPrefixList pat (c :: t) || hasSubstr pat (c :: t).tail

/-- JS `s.includes(pat)`. -/
def strContains (s pat : String) : Bool :=
  hasSubstr pat.data s.data

/-- JS `s.startsWith(pat)`. -/
def strStartsWith (s pat : String) : Bool :=
  isPrefixList pat.data s.data

/-! ## Credential extraction (`getBearerToken`, `getApiKeyFromReq`)

`getBearerToken` applies `/^Bearer\s+(.+)$/i` to the `authorization` header
and trims the capture; no header or no match yields `''`.  The regex match
followed by `.trim()` is equivalent to: case-insensitive `Bearer` prefix,
followed by at least one whitespace character, with a non-whitespace remnant,
and the result is the trimmed remainder. -/

/-- Does the string start with a whitespace character? -/
def headIsWs (s : String) : Bool :=
  match s.data with
  | c :: _ => c.isWhitespace
  | [] => false

/-- `getBearerToken(req)`: parse the `authorization` header. -/
def getBearerToken (authHeader : Option String) : String :=
  match authHeader with
  | none => ""
  | some s =>
    let rest := s.drop 6
    if strLower (s.take 6) = "bearer" ∧ headIsWs rest ∧ strTrim rest ≠ "" then
      strTrim rest
    else ""

/-- `getApiKeyFromReq(req)`: bearer header first, else the `?key=` query
parameter (trimmed). -/
def getApiKeyFromReq (authHeader : Option String) (keyParam : Option String) : String :=
  let bearer := getBearerToken authHeader
  if bearer ≠ "" then bearer
  else strTrim (match keyParam with | some q => q | none => "")

/-! ## Upstream record shapes and the status normalizer -/

/-- An object holding a `url` field, as in `task_result.videos[0].url`. -/
structure UrlObj where
  url : Option String
deriving DecidableEq

/-- The nested `task_result` shape (`videos` / `images` arrays). -/
structure TaskResult where
  videos : Option (List UrlObj)
  images : Option (List UrlObj)
deriving DecidableEq

/-- The nested `response` / `result` shape carrying result-URL arrays. -/
structure RespFields where
  resultUrls : Option (List String)
  result_urls : Option (List String)
  urls : Option (List String)
deriving DecidableEq

/-- The fields of an upstream record (`data`) object that the server reads. -/
structure KieData where
  successFlag : Option Int
  state : Option String
  status : Option String
  task_status : Option String
  taskStatus : Option String
  response : Option RespFields
  result : Option RespFields
  resultUrls : Option (List String)
  result_urls : Option (List String)
  urls : Option (List String)
  task_result : Option TaskResult
  taskResult : Option TaskResult
  video_url : Option String
  url : Option String
  errorMessage : Option String
  message : Option String
deriving DecidableEq

/-- A `KieData` with every field absent. -/
def emptyKieData : KieData :=
  ⟨none, none, none, none, none, none, none, none, none, none, none, none, none, none, none, none⟩

/-- An empty `response` object (`{}`). -/
def emptyRespFields : RespFields :=
  ⟨none, none, none⟩

/-- A raw upstream JSON response: an optional `data` wrapper, a top-level
`msg`, and the record fields of the JSON object itself (used when there is no
`data` wrapper, per `json?.data ?? json`). -/
structure KieJson where
  data : Option KieData
  msg : Option String
  selfData : KieData
deriving DecidableEq

/-- `const data = json?.data ?? json;` -/
def dataOf (j : KieJson) : KieData :=
  match j.data with
  | some d => d
  | none => j.selfData

/-- `String(data?.state ?? data?.status ?? data?.task_status ?? data?.taskStatus || '').toLowerCase()` -/
def stateOf (d : KieData) : String :=
  strLower (match firstSome [d.state, d.status, d.task_status, d.taskStatus] with
    | some s => s
    | none => "")

/-- The three-state status model. -/
inductive SimpleStatus where
  | completed
  | failed
  | processing
deriving DecidableEq

/-- `normalizeKieStatusToSimple(json)` (server.js lines 379-393). -/
def normalizeKieStatusToSimple (j : KieJson) : SimpleStatus :=
  let data := dataOf j
  let state := stateOf data
  if data.successFlag = some 1 ∨ state = "success" ∨ state = "succeed" ∨
      state = "completed" ∨ state = "done" then
    .completed
  else if data.successFlag = some 2 ∨ data.successFlag = some 3 ∨
      state = "failed" ∨ state = "error" ∨ state = "fail" then
    .failed
  else
    .processing

/-- The recognized success text tokens. -/
def isSuccessText (s : String) : Bool :=
  s == "success" || s == "succeed" || s == "completed" || s == "done"

/-- The recognized failure text tokens. -/
def isFailText (s : String) : Bool :=
  s == "failed" || s == "error" || s == "fail"

/-- `extractFirstResultUrl(json)` (server.js lines 395-415). -/
def extractFirstResultUrl (j : KieJson) : Option String :=
  let data := dataOf j
  let response := (firstSome [data.response, data.result]).getD emptyRespFields
  let urls := (firstSome [response.resultUrls, response.result_urls, response.urls,
    data.resultUrls, data.result_urls, data.urls]).getD []
  match urls with
  | u :: _ => some u
  | [] =>
    let tr := firstSome [data.task_result, data.taskResult]
    match firstTruthy [tr.bind (fun t => ((t.videos.getD []).head?).bind (fun v => v.url)),
        tr.bind (fun t => ((t.images.getD []).head?).bind (fun v => v.url))] with
    | some m => some m
    | none => firstTruthy [data.video_url, data.url]

/-! ## MIME sniffing -/

/-- `detectImageMime(buffer)` (server.js lines 117-128); the buffer is its
byte sequence. -/
def detectImageMime (buffer : List Nat) : String :=
  if buffer.length < 4 then "image/png"
  else
    match buffer with
    | b0 :: b1 :: b2 :: b3 :: _ =>
      if b0 = 0x89 ∧ b1 = 0x50 ∧ b2 = 0x4E ∧ b3 = 0x47 then "image/png"
      else if b0 = 0xFF ∧ b1 = 0xD8 ∧ b2 = 0xFF then "image/jpeg"
      else if b0 = 0x47 ∧ b1 = 0x49 ∧ b2 = 0x46 then "image/gif"
      else if b0 = 0x52 ∧ b1 = 0x49 ∧ b2 = 0x46 ∧ b3 = 0x46 then "image/webp"
      else "image/png"
    | _ => "image/png"

/-- Byte test: does the buffer start with the PNG signature? -/
def pngSig (b : List Nat) : Bool :=
  match b with
  | b0 :: b1 :: b2 :: b3 :: _ => b0 == 0x89 && b1 == 0x50 && b2 == 0x4E && b3 == 0x47
  | _ => false

/-- Byte test: does the buffer start with the JPEG SOI marker? -/
def jpegSig (b : List Nat) : Bool :=
  match b with
  | b0 :: b1 :: b2 :: _ => b0 == 0xFF && b1 == 0xD8 && b2 == 0xFF
  | _ => false

/-- Byte test: does the buffer start with the GIF signature? -/
def gifSig (b : List Nat) : Bool :=
  match b with
  | b0 :: b1 :: b2 :: _ => b0 == 0x47 && b1 == 0x49 && b2 == 0x46
  | _ => false

/-- Byte test: does the buffer start with a RIFF header? -/
def riffSig (b : List Nat) : Bool :=
  match b with
  | b0 :: b1 :: b2 :: b3 :: _ => b0 == 0x52 && b1 == 0x49 && b2 == 0x46 && b3 == 0x46
  | _ => false

/-! ## Media upload with endpoint-candidate probing (`kieUploadBuffer`) -/

/-- The fields probed for a hosted-file URL in an upload response. -/
structure UploadRespData where
  url : Option String
  fileUrl : Option String
  file_url : Option String
  downloadUrl : Option String
  download_url : Option String
  resultUrl : Option String
  result_url : Option String
deriving DecidableEq

/-- An `UploadRespData` with every field absent. -/
def emptyUploadRespData : UploadRespData :=
  ⟨none, none, none, none, none, none, none⟩

/-- An upload response body: optional `data` wrapper, else the object itself
(`json?.data ?? json`). -/
structure UploadResp where
  data : Option UploadRespData
  selfData : UploadRespData
deriving DecidableEq

/-- `const data = json?.data ?? json;` for upload responses. -/
def dataOfUpload (r : UploadResp) : UploadRespData :=
  match r.data with
  | some d => d
  | none => r.selfData

/-- `data?.url || data?.fileUrl || ... || data?.result_url`, followed by the
truthiness test `if (fileUrl && typeof fileUrl === 'string')`. -/
def extractFileUrl (d : UploadRespData) : Option String :=
  firstTruthy [d.url, d.fileUrl, d.file_url, d.downloadUrl, d.download_url,
    d.resultUrl, d.result_url]

/-- The outcome of one candidate upload endpoint call: the `fetch` threw
(network failure / timeout), or returned with HTTP-ok flag and a body. -/
inductive UploadAttempt where
  | throwErr
  | resp (ok : Bool) (body : UploadResp)
deriving DecidableEq

/-- The candidate loop of `kieUploadBuffer` (server.js lines 174-207): a
thrown attempt or a non-ok status falls through to the next candidate, as
does an ok response from which no URL can be extracted; the first extracted
URL is returned. -/
def probeUploadCandidates : List UploadAttempt → Option String
  | [] => none
  | .throwErr :: rest => probeUploadCandidates rest
  | .resp ok body :: rest =>
    if ok then
      match extractFileUrl (dataOfUpload body) with
      | some u => some u
      | none => probeUploadCandidates rest
    else probeUploadCandidates rest

/-- `kieUploadBuffer` (server.js lines 159-210): guards, then the candidate
loop; exhaustion throws the final upload-failed error. -/
def kieUploadBuffer (apiKey : String) (buffer : List Nat)
    (attempts : List UploadAttempt) : Except String String :=
  if apiKey = "" then .error "Missing APIKey"
  else if buffer = [] then .error "Empty upload"
  else
    match probeUploadCandidates attempts with
    | some u => .ok u
    | none => .error "KIE file upload failed"

/-- What one upload candidate contributes: `some url` exactly when its call
returned ok and a URL was extractable. -/
def uploadAttemptResult : UploadAttempt → Option String
  | .throwErr => none
  | .resp ok body => if ok then extractFileUrl (dataOfUpload body) else none

/-! ## Image generation with endpoint-candidate probing (`kieImageGenerate`) -/

/-- The `data` object of a create-task response. -/
structure CreateTaskData where
  taskId : Option String
  task_id : Option String
deriving DecidableEq

/-- A create-task response: optional `data` wrapper plus top-level id
fields. -/
structure CreateTaskResp where
  data : Option CreateTaskData
  taskId : Option String
  task_id : Option String
deriving DecidableEq

/-- `json?.data?.taskId || json?.data?.task_id || json?.taskId || json?.task_id` -/
def extractTaskId (r : CreateTaskResp) : Option String :=
  firstTruthy [r.data.bind (fun d => d.taskId), r.data.bind (fun d => d.task_id),
    r.taskId, r.task_id]

/-- The outcome of one candidate generate-endpoint call. -/
inductive GenAttempt where
  | throwErr
  | resp (ok : Bool) (body : CreateTaskResp)
deriving DecidableEq

/-- The candidate loop of `kieImageGenerate` (server.js lines 325-342): a
thrown attempt or a non-ok status falls through, as does an ok response with
no extractable task id; the first extracted task id is returned. -/
def probeImageGenerate : List GenAttempt → Option String
  | [] => none
  | .throwErr :: rest => probeImageGenerate rest
  | .resp ok body :: rest =>
    if ok then
      match extractTaskId body with
      | some tid => some tid
      | none => probeImageGenerate rest
    else probeImageGenerate rest

/-- `kieImageGenerate` (server.js lines 317-344): the loop, with exhaustion
throwing the final image-generate-failed error. -/
def kieImageGenerate (attempts : List GenAttempt) : Except String String :=
  match probeImageGenerate attempts with
  | some tid => .ok tid
  | none => .error "KIE image generate failed"

/-- What one generate candidate contributes: `some taskId` exactly when its
call returned ok and a task id was extractable. -/
def genAttemptResult : GenAttempt → Option String
  | .throwErr => none
  | .resp ok body => if ok then extractTaskId body else none

/-! ## Aspect-ratio mapping and the Kling surface -/

/-- `mapAspectRatio(sizeOrRatio)` (server.js lines 212-220). -/
def mapAspectRatio (sizeOrRatio : Option String) : String :=
  let v := strTrim (jsStringOr sizeOrRatio "")
  if v = "" then "16:9"
  else if v = "16:9" ∨ v = "9:16" ∨ v = "1:1" ∨ v = "4:3" ∨ v = "3:4" then v
  else if strLower v = "auto" then "Auto"
  else "16:9"

/-- `isVeoModel(model)`. -/
def isVeoModel (model : String) : Bool :=
  strContains (strLower model) "veo"

/-- `isSoraModel(model)`. -/
def isSoraModel (model : String) : Bool :=
  strContains (strLower model) "sora"

/-- The job input built for the Kling video tasks. -/
structure KlingInput where
  prompt : String
  aspect_ratio : String
  duration : String
  sound : Bool
  image_urls : Option (List String)
deriving DecidableEq

/-- The request body of `POST /kling/v1/videos/text2video`. -/
structure KlingTextBody where
  prompt : Option String
  aspect_ratio : Option String
  duration : Option String
deriving DecidableEq

/-- The request body of `POST /kling/v1/videos/image2video`; the caller may
supply an `aspect_ratio` field, which the handler does not read. -/
structure KlingImageBody where
  prompt : Option String
  aspect_ratio : Option String
  duration : Option String
  image : Option String
deriving DecidableEq

/-- The job input built by the text2video handler (server.js lines 826-832):
`{ prompt, aspect_ratio: mapAspectRatio(body.aspect_ratio), duration, sound: false }`. -/
def klingText2VideoInput (body : KlingTextBody) : KlingInput :=
  { prompt := strTrim (jsStringOr body.prompt "")
    aspect_ratio := mapAspectRatio body.aspect_ratio
    duration := jsStringOr body.duration "5"
    sound := false
    image_urls := none }

/-- The job input built by the image2video handler (server.js lines 870-883):
`const aspect_ratio = '16:9';` regardless of the body, plus the uploaded
image URL. -/
def klingImage2VideoInput (body : KlingImageBody) (fileUrl : String) : KlingInput :=
  { prompt := strTrim (jsStringOr body.prompt "")
    aspect_ratio := "16:9"
    duration := jsStringOr body.duration "5"
    sound := false
    image_urls := some [fileUrl] }

/-! ## Multimodal generate-content surface -/

/-- A Gemini `inline_data` blob (snake-case shape). -/
structure InlineBlob where
  mime_type : Option String
  data : Option String
deriving DecidableEq

/-- A Gemini `inlineData` blob (camel-case shape). -/
structure InlineCamel where
  mimeType : Option String
  data : Option String
deriving DecidableEq

/-- One element of `contents[].parts[]`. -/
structure GenPart where
  text : Option String
  inline_data : Option InlineBlob
  inlineData : Option InlineCamel
deriving DecidableEq

/-- One element of `contents[]`. -/
structure GenContent where
  parts : List GenPart
deriving DecidableEq

/-- The `generationConfig` object. -/
structure GenConfig where
  responseModalities : Option (List String)
  candidateCount : Option Int
  imageSize : Option String
deriving DecidableEq

/-- The body of a `:generateContent` request. -/
structure GenBody where
  contents : List GenContent
  generationConfig : Option GenConfig
deriving DecidableEq

/-- All parts of all contents, in request order. -/
def partsOf (body : GenBody) : List GenPart :=
  (body.contents.map (fun c => c.parts)).flatten

/-- The collected trimmed text fragments
(`if (typeof p?.text === 'string' && p.text.trim()) texts.push(p.text.trim())`). -/
def geminiTexts (body : GenBody) : List String :=
  (partsOf body).filterMap (fun p =>
    match p.text with
    | some t => if strTrim t = "" then none else some (strTrim t)
    | none => none)

/-- The collected inline images, as (mime, base64-data) pairs
(`p?.inline_data || (p?.inlineData ? {...} : null)`, kept when `inline?.data`
is truthy, with `inline.mime_type || 'image/png'`). -/
def geminiImages (body : GenBody) : List (String × String) :=
  (partsOf body).filterMap (fun p =>
    match firstSome [p.inline_data,
        p.inlineData.map (fun i => InlineBlob.mk i.mimeType i.data)] with
    | some inl =>
      match truthyStr inl.data with
      | some d => some ((truthyStr inl.mime_type).getD "image/png", d)
      | none => none
    | none => none)

/-- `extractGeminiTextAndInlineImages(body)` (server.js lines 968-986):
texts joined with a blank line then trimmed, plus the inline images. -/
def extractGeminiTextAndInlineImages (body : GenBody) : String × List (String × String) :=
  (strTrim (String.intercalate "\n\n" (geminiTexts body)), geminiImages body)

/-- `simplePromptPolish(text)` (server.js lines 1002-1012): deterministic
local expansion, the five lines joined with a newline. -/
def simplePromptPolish (text : String) : String :=
  if text = "" then ""
  else
    "请将以下提示词优化为更适合生成高质量视频/图片的描述（保持原意，补充细节）：" ++ "\n" ++
    "" ++ "\n" ++ text ++ "\n" ++ "" ++ "\n" ++
    "优化要点：主体清晰、场景/光线/镜头语言、风格、分辨率/画幅、避免违规内容。"

/-- The observable outcome of the `:generateContent` handler:
`unauthorized` is the immediate 401 reply (no upstream call, no ledger
append); `localText t` is the 200 reply with a single text-part candidate
`t` and no upstream call; `upstreamImage` is the path that uploads every
inline image and submits an image-generation job upstream. -/
inductive GenOutcome where
  | unauthorized
  | localText (t : String)
  | upstreamImage (prompt : String) (images : List (String × String)) (n : Int)
deriving DecidableEq

/-- The `POST /v1beta/models/(.+):generateContent` handler (server.js lines
1014-1070) up to its first outbound decision. -/
def generateContentHandler (authHeader : Option String) (keyParam : Option String)
    (modelId : String) (body : GenBody) : GenOutcome :=
  let apiKey := getApiKeyFromReq authHeader keyParam
  if apiKey = "" then .unauthorized
  else
    let pi := extractGeminiTextAndInlineImages body
    let responseModalities := (body.generationConfig.bind
      (fun g => g.responseModalities)).getD []
    let wantsImage := responseModalities.contains "IMAGE" ||
      strContains (strLower modelId) "image"
    if wantsImage = false ∧ pi.2 = [] then
      let polished := simplePromptPolish pi.1
      .localText (if polished ≠ "" then polished else if pi.1 ≠ "" then pi.1 else "")
    else
      .upstreamImage pi.1 pi.2
        (min 4 (max 1 ((body.generationConfig.bind (fun g => g.candidateCount)).getD 1)))

/-! ## Synchronous wait engine (`waitForKieImageResult`) -/

/-- How a synchronous wait ends: the result URLs, a job failure carrying the
upstream message, or the wall-clock timeout. -/
inductive WaitResult where
  | success (urls : List String)
  | jobFailed (msg : String)
  | timeout
deriving DecidableEq

/-- The URL list returned on `completed` (server.js lines 362-368):
`response?.resultUrls || response?.result_urls || []`, falling back to the
single `extractFirstResultUrl`, else `[]`. -/
def waitResultUrls (j : KieJson) : List String :=
  let data := dataOf j
  let response := (data.response).getD emptyRespFields
  let urls := (firstSome [response.resultUrls, response.result_urls]).getD []
  if urls ≠ [] then urls
  else
    match extractFirstResultUrl j with
    | some u => [u]
    | none => []

/-- The message thrown on `failed` (server.js line 372):
`data?.errorMessage || data?.message || json?.msg || 'image generation failed'`. -/
def waitErrMsg (j : KieJson) : String :=
  (firstTruthy [(dataOf j).errorMessage, (dataOf j).message, j.msg]).getD
    "image generation failed"

/-- The poll loop of `waitForKieImageResult` (server.js lines 356-377), with
time made explicit: `fetch t` is the record returned by the poll issued at
elapsed time `t`; each iteration advances the clock by the poll interval
(`IMAGE_SYNC_POLL_MS`), and polls are issued only while the elapsed time is
below the budget (`IMAGE_SYNC_MAX_WAIT_MS`). -/
def waitAux (fetch : Nat → KieJson) (budget interval : Nat)
    (hpos : 0 < interval) (t : Nat) : WaitResult :=
  if _h : t < budget then
    let j := fetch t
    match normalizeKieStatusToSimple j with
    | .completed => .success (waitResultUrls j)
    | .failed => .jobFailed (waitErrMsg j)
    | .processing => waitAux fetch budget interval hpos (t + interval)
  else .timeout
termination_by budget - t
decreasing_by omega

/-- `waitForKieImageResult`: the loop entered at elapsed time 0. -/
def waitForKieImageResult (fetch : Nat → KieJson) (budget interval : Nat)
    (hpos : 0 < interval) : WaitResult :=
  waitAux fetch budget interval hpos 0

/-- A record that never reports a terminal state (no sentinel, no state
text): a constant-pending poll stub. -/
def pendingStubJson : KieJson :=
  ⟨none, none, emptyKieData⟩

/-- A fetcher that returns the constant-pending record at every poll. -/
def pendingFetch : Nat → KieJson :=
  fun _ => pendingStubJson

/-! ## Surface handlers with explicit effect traces

Each handler model returns the HTTP status of its reply together with the
ordered list of side effects it performed: `upstream` for an outbound call to
the KIE API and `ledger` for a `pushUsageLog` append.  Upstream results are
supplied as oracle values. -/

/-- An observable side effect of a handler. -/
inductive Eff where
  | upstream (tag : String)
  | ledger (tag : String)
deriving DecidableEq

/-- `POST /v1/videos` (server.js lines 692-749): bearer guard, then the
Veo / Sora dispatch; oracles stand for `kieVeoGenerate`, `kieUploadBuffer`
and `kieCreateTask`. -/
def v1VideosCreateHandler (authHeader : Option String) (model : String)
    (hasFile : Bool) (veoOracle uploadOracle createOracle : Except String String) :
    Nat × List Eff :=
  let apiKey := getBearerToken authHeader
  if apiKey = "" then (401, [])
  else if isVeoModel model then
    match veoOracle with
    | .ok _ => (200, [.upstream "kieVeoGenerate", .ledger "/v1/videos"])
    | .error _ => (500, [.upstream "kieVeoGenerate"])
  else if isSoraModel model then
    if hasFile then
      match uploadOracle with
      | .error _ => (500, [.upstream "kieUploadBuffer"])
      | .ok _ =>
        match createOracle with
        | .ok _ => (200, [.upstream "kieUploadBuffer", .upstream "kieCreateTask",
            .ledger "/v1/videos"])
        | .error _ => (500, [.upstream "kieUploadBuffer", .upstream "kieCreateTask"])
    else
      match createOracle with
      | .ok _ => (200, [.upstream "kieCreateTask", .ledger "/v1/videos"])
      | .error _ => (500, [.upstream "kieCreateTask"])
  else (400, [])

/-- `GET /v1/videos/:taskId` (server.js lines 752-791): bearer guard, then a
single record lookup on the Veo or Market path. -/
def v1VideosPollHandler (authHeader : Option String) (taskId : String)
    (recordOracle : Except String KieJson) : Nat × List Eff :=
  let apiKey := getBearerToken authHeader
  if apiKey = "" then (401, [])
  else if strStartsWith (strLower taskId) "veo" then
    match recordOracle with
    | .ok _ => (200, [.upstream "kieVeoRecordInfo"])
    | .error _ => (500, [.upstream "kieVeoRecordInfo"])
  else
    match recordOracle with
    | .ok _ => (200, [.upstream "kieRecordInfo"])
    | .error _ => (500, [.upstream "kieRecordInfo"])

/-- `POST /kling/v1/videos/text2video` (server.js lines 820-840): bearer
guard, input construction, one create-task call, one ledger append on
success.  The third component is the job input submitted upstream, when the
create-task call was reached. -/
def klingText2VideoHandler (authHeader : Option String) (body : KlingTextBody)
    (createOracle : Except String String) : Nat × List Eff × Option KlingInput :=
  let apiKey := getBearerToken authHeader
  if apiKey = "" then (401, [], none)
  else
    let input := klingText2VideoInput body
    match createOracle with
    | .ok _ => (200, [.upstream "kieCreateTask", .ledger "/kling/v1/videos/text2video"],
        some input)
    | .error _ => (500, [.upstream "kieCreateTask"], some input)

/-- `POST /kling/v1/videos/image2video` (server.js lines 865-891): bearer
guard, base64-image guard, upload, input construction with the hard-coded
aspect ratio, one create-task call, one ledger append on success. -/
def klingImage2VideoHandler (authHeader : Option String) (body : KlingImageBody)
    (uploadOracle createOracle : Except String String) :
    Nat × List Eff × Option KlingInput :=
  let apiKey := getBearerToken authHeader
  if apiKey = "" then (401, [], none)
  else
    let b64 := strTrim (jsStringOr body.image "")
    if b64 = "" then (400, [], none)
    else
      match uploadOracle with
      | .error _ => (500, [.upstream "kieUploadBuffer"], none)
      | .ok fileUrl =>
        let input := klingImage2VideoInput body fileUrl
        match createOracle with
        | .ok _ => (200, [.upstream "kieUploadBuffer", .upstream "kieCreateTask",
            .ledger "/kling/v1/videos/image2video"], some input)
        | .error _ => (500, [.upstream "kieUploadBuffer", .upstream "kieCreateTask"],
            some input)

/-- The outcome of one candidate chat endpoint call. -/
inductive ChatAttempt where
  | throwErr
  | resp (status : Nat)
deriving DecidableEq

/-- The candidate loop of `POST /v1/chat/completions` (server.js lines
1089-1131): a thrown attempt or a 404 falls through to the next candidate;
any other response is forwarded (with one ledger append) and the loop stops;
exhaustion yields 502. -/
def chatLoop : List ChatAttempt → Nat × List Eff
  | [] => (502, [])
  | .throwErr :: rest =>
    let r := chatLoop rest
    (r.1, .upstream "chat" :: r.2)
  | .resp status :: rest =>
    if status = 404 then
      let r := chatLoop rest
      (r.1, .upstream "chat" :: r.2)
    else (status, [.upstream "chat", .ledger "/v1/chat/completions"])

/-- `POST /v1/chat/completions` (server.js lines 1075-1136): bearer guard,
then the candidate loop. -/
def chatCompletionsHandler (authHeader : Option String)
    (attempts : List ChatAttempt) : Nat × List Eff :=
  let apiKey := getBearerToken authHeader
  if apiKey = "" then (401, [])
  else chatLoop attempts

/-! ## Usage ledger (`pushUsageLog`) -/

/-- The empty usage-log map (`new Map()`), as a total function from key hash
to log list. -/
def emptyUsageLogs {α : Type} : String → List α :=
  fun _ => []

/-- `pushUsageLog(apiKey, log)` (server.js lines 145-153): no-op for a
missing key; otherwise prepend (`unshift`) under the key hash and truncate
(`arr.length = 2000`) when the cap is exceeded.  The hash (`sha256Short`) is
abstracted as a parameter; the global `usageLogs` map is passed explicitly. -/
def pushUsageLog {α : Type} (hash : String → String) (m : String → List α)
    (apiKey : String) (log : α) : String → List α :=
  if apiKey = "" then m
  else
    let keyHash := hash apiKey
    let arr := log :: m keyHash
    let arr2 := if 2000 < arr.length then arr.take 2000 else arr
    fun k => if k = keyHash then arr2 else m k

/-- Iterated `pushUsageLog`, appending a list of entries in order. -/
def pushUsageLogs {α : Type} (hash : String → String) (m : String → List α)
    (apiKey : String) (l : List α) : String → List α :=
  l.foldl (fun acc e => pushUsageLog hash acc apiKey e) m

/-! ## Helper lemmas -/

/-- Taking `n` from an append whose right part was already capped at `n`
gives the same as taking `n` from the uncapped append. -/
theorem take_append_take {α : Type} (a b : List α) (n : Nat) :
    (a ++ b.take n).take n = (a ++ b).take n := by
  rw [List.take_append_eq_append_take, List.take_append_eq_append_take, List.take_take,
    Nat.min_eq_left (Nat.sub_le n a.length)]

/-- One `pushUsageLog` with a nonempty key stores, under that key's hash, the
new entry prepended and the list capped at 2000. -/
theorem pushUsageLog_apply {α : Type} (hash : String → String) (m : String → List α)
    (apiKey : String) (e : α) (hk : apiKey ≠ "") :
    (pushUsageLog hash m apiKey e) (hash apiKey) = (e :: m (hash apiKey)).take 2000 := by
  by_cases hlen : 2000 < (e :: m (hash apiKey)).length
  · simp [pushUsageLog, hk, hlen]
  · simp [pushUsageLog, hk, hlen]

/-- Iterated `pushUsageLog` from a state whose stored list is within the cap
stores the appended entries most-recent-first, capped at 2000. -/
theorem pushUsageLogs_apply {α : Type} (hash : String → String) (apiKey : String)
    (hk : apiKey ≠ "") :
    ∀ (l : List α) (m : String → List α), (m (hash apiKey)).length ≤ 2000 →
      (pushUsageLogs hash m apiKey l) (hash apiKey) =
        (l.reverse ++ m (hash apiKey)).take 2000 := by
  intro l
  induction l with
  | nil =>
    intro m hm
    simp only [pushUsageLogs, List.foldl_nil, List.reverse_nil, List.nil_append]
    rw [List.take_of_length_le hm]
  | cons e l ih =>
    intro m hm
    have hstep := pushUsageLog_apply hash m apiKey e hk
    have hcap : (((pushUsageLog hash m apiKey e) (hash apiKey)).length ≤ 2000) := by
      rw [hstep]; exact List.length_take_le 2000 _
    calc (pushUsageLogs hash m apiKey (e :: l)) (hash apiKey)
        = (pushUsageLogs hash (pushUsageLog hash m apiKey e) apiKey l) (hash apiKey) := by
          simp [pushUsageLogs]
      _ = (l.reverse ++ (e :: m (hash apiKey)).take 2000).take 2000 := by
          rw [ih _ hcap, hstep]
      _ = (l.reverse ++ (e :: m (hash apiKey))).take 2000 := take_append_take _ _ _
      _ = ((e :: l).reverse ++ m (hash apiKey)).take 2000 := by
          simp [List.reverse_cons, List.append_assoc]

/-- A non-candidate-list step of `probeUploadCandidates`: the head attempt
either yields a URL or the probe falls through to the tail. -/
theorem probeUploadCandidates_cons (b : UploadAttempt) (l : List UploadAttempt) :
    probeUploadCandidates (b :: l) =
      match uploadAttemptResult b with
      | some u => some u
      | none => probeUploadCandidates l := by
  cases b with
  | throwErr => rfl
  | resp ok body => cases ok <;> rfl

/-- A step of `probeImageGenerate`: the head attempt either yields a task id
or the probe falls through to the tail. -/
theorem probeImageGenerate_cons (b : GenAttempt) (l : List GenAttempt) :
    probeImageGenerate (b :: l) =
      match genAttemptResult b with
      | some tid => some tid
      | none => probeImageGenerate l := by
  cases b with
  | throwErr => rfl
  | resp ok body => cases ok <;> rfl

/-- A nonempty prompt has a nonempty polish. -/
theorem simplePromptPolish_ne (p : String) (hp : p ≠ "") : simplePromptPolish p ≠ "" := by
  unfold simplePromptPolish
  rw [if_neg hp]
  intro h
  have hl := congrArg String.length h
  simp only [String.length_append] at hl
  have hh : 0 <
      ("请将以下提示词优化为更适合生成高质量视频/图片的描述（保持原意，补充细节）：" : String).length := by
    decide
  simp only [String.length] at hl hh ⊢
  omega

/-- The handler's `polished || prompt || ''` collapses to the polish itself. -/
theorem polish_fallback (p : String) :
    (if simplePromptPolish p ≠ "" then simplePromptPolish p
     else if p ≠ "" then p else "") = simplePromptPolish p := by
  by_cases hp : p = ""
  · subst hp; simp [simplePromptPolish]
  · simp [simplePromptPolish_ne p hp]

/-- With an always-pending fetcher the wait loop can only end in timeout. -/
theorem waitAux_pending (fetch : Nat → KieJson) (budget interval : Nat)
    (hpos : 0 < interval)
    (hpending : ∀ t, normalizeKieStatusToSimple (fetch t) = .processing) :
    ∀ t, waitAux fetch budget interval hpos t = .timeout := by
  have key : ∀ n t, budget - t ≤ n → waitAux fetch budget interval hpos t = .timeout := by
    intro n
    induction n with
    | zero =>
      intro t ht
      rw [waitAux]
      have hnl : ¬ t < budget := by omega
      simp [hnl]
    | succ n ih =>
      intro t ht
      rw [waitAux]
      by_cases hlt : t < budget
      · rw [dif_pos hlt]
        simp only [hpending t]
        exact ih (t + interval) (by omega)
      · rw [dif_neg hlt]
  exact fun t => key (budget - t) t le_rfl

/-! ## Claim theorems -/

/-- C1 counterexample: a record with numeric sentinel `2` and text state
`"success"` normalizes to `completed`, not `failed` — the success text token
is tested in the same (first) disjunct as sentinel `1`, so it outranks the
failure sentinels. -/
theorem C1_counterexample :
    normalizeKieStatusToSimple
      ⟨some { emptyKieData with successFlag := some 2, state := some "success" },
        none, emptyKieData⟩ = .completed ∧
    ¬ normalizeKieStatusToSimple
      ⟨some { emptyKieData with successFlag := some 2, state := some "success" },
        none, emptyKieData⟩ = .failed := by
  constructor <;> decide

/-- C1 (amended): sentinel `1` always yields `completed` regardless of the
text field; sentinel `2` or `3` yields `failed` provided the text field is
not a recognized success token; when the text field is a success token it
wins even over sentinel `2`/`3` and the result is `completed`. -/
theorem C1_sentinel_normalization (j : KieJson) :
    ((dataOf j).successFlag = some 1 → normalizeKieStatusToSimple j = .completed)
    ∧ (((dataOf j).successFlag = some 2 ∨ (dataOf j).successFlag = some 3) →
        isSuccessText (stateOf (dataOf j)) = false →
        normalizeKieStatusToSimple j = .failed)
    ∧ (((dataOf j).successFlag = some 2 ∨ (dataOf j).successFlag = some 3) →
        isSuccessText (stateOf (dataOf j)) = true →
        normalizeKieStatusToSimple j = .completed) := by
  refine ⟨fun h1 => ?_, fun h2 hs => ?_, fun h2 hs => ?_⟩
  · simp [normalizeKieStatusToSimple, h1]
  · simp only [isSuccessText, Bool.or_eq_false_iff, beq_eq_false_iff_ne, ne_eq] at hs
    obtain ⟨⟨⟨hs1, hs2⟩, hs3⟩, hs4⟩ := hs
    have h1 : (dataOf j).successFlag ≠ some 1 := by
      rcases h2 with h | h <;> simp [h]
    simp only [normalizeKieStatusToSimple]
    rw [if_neg (by simp [h1, hs1, hs2, hs3, hs4]), if_pos (by tauto)]
  · simp only [isSuccessText, Bool.or_eq_true, beq_iff_eq] at hs
    simp only [normalizeKieStatusToSimple]
    rw [if_pos (by tauto)]

/-- C1 witness: the amended theorem applied to a record with sentinel `3` and
an unrecognized text state. -/
theorem C1_sentinel_normalization_witness :
    normalizeKieStatusToSimple
      ⟨some { emptyKieData with successFlag := some 3, state := some "queueing" },
        none, emptyKieData⟩ = .failed :=
  (C1_sentinel_normalization _).2.1 (Or.inr rfl) (by decide)

/-- C2 (confirmed): a record with no recognized numeric sentinel and no
recognized success or failure text token normalizes to the pending
(`processing`) state. -/
theorem C2_unrecognized_defaults_pending (j : KieJson)
    (h1 : (dataOf j).successFlag ≠ some 1)
    (h2 : (dataOf j).successFlag ≠ some 2)
    (h3 : (dataOf j).successFlag ≠ some 3)
    (h4 : isSuccessText (stateOf (dataOf j)) = false)
    (h5 : isFailText (stateOf (dataOf j)) = false) :
    normalizeKieStatusToSimple j = .processing := by
  simp only [isSuccessText, Bool.or_eq_false_iff, beq_eq_false_iff_ne, ne_eq] at h4
  obtain ⟨⟨⟨hs1, hs2⟩, hs3⟩, hs4⟩ := h4
  simp only [isFailText, Bool.or_eq_false_iff, beq_eq_false_iff_ne, ne_eq] at h5
  obtain ⟨⟨hf1, hf2⟩, hf3⟩ := h5
  simp only [normalizeKieStatusToSimple]
  rw [if_neg (by simp [h1, hs1, hs2, hs3, hs4]),
    if_neg (by simp [h2, h3, hf1, hf2, hf3])]

/-- C2 witness: a record whose sentinel is `7` and whose state is
`"queueing"` stays pending. -/
theorem C2_unrecognized_defaults_pending_witness :
    normalizeKieStatusToSimple
      ⟨some { emptyKieData with successFlag := some 7, state := some "queueing" },
        none, emptyKieData⟩ = .processing :=
  C2_unrecognized_defaults_pending _ (by decide) (by decide) (by decide)
    (by decide) (by decide)

/-- C10 (confirmed): any buffer shorter than 4 bytes is sniffed as the
`image/png` default, whatever its content. -/
theorem C10_short_buffer_png_default (b : List Nat) (h : b.length < 4) :
    detectImageMime b = "image/png" := by
  unfold detectImageMime
  rw [if_pos h]

/-- C10 witness: the bare 3-byte JPEG SOI marker is sniffed as PNG. -/
theorem C10_short_buffer_png_default_witness :
    ([0xFF, 0xD8, 0xFF] : List Nat).length < 4 ∧
    detectImageMime [0xFF, 0xD8, 0xFF] = "image/png" :=
  ⟨by decide, C10_short_buffer_png_default _ (by decide)⟩

/-- C5 counterexample: a buffer that begins with (indeed, is exactly) the
3-byte JPEG SOI marker is mapped to the PNG default, not to `image/jpeg`,
because the signature checks only run for buffers of at least 4 bytes. -/
theorem C5_counterexample :
    detectImageMime [0xFF, 0xD8, 0xFF] = "image/png" ∧
    detectImageMime [0xFF, 0xD8, 0xFF] ≠ "image/jpeg" := by
  constructor <;> decide

/-- C5 (amended): for every buffer of at least 4 bytes, the PNG signature
maps to `image/png`, the JPEG SOI marker to `image/jpeg`, the GIF signature
to `image/gif`, a RIFF header to `image/webp`, and any buffer matching none
of the four signatures to the `image/png` default. -/
theorem C5_mime_signatures (b : List Nat) (h : 4 ≤ b.length) :
    (pngSig b = true → detectImageMime b = "image/png")
    ∧ (jpegSig b = true → detectImageMime b = "image/jpeg")
    ∧ (gifSig b = true → detectImageMime b = "image/gif")
    ∧ (riffSig b = true → detectImageMime b = "image/webp")
    ∧ (pngSig b = false → jpegSig b = false → gifSig b = false →
        riffSig b = false → detectImageMime b = "image/png") := by
  rcases b with _ | ⟨b0, b⟩; · simp at h
  rcases b with _ | ⟨b1, b⟩; · simp at h
  rcases b with _ | ⟨b2, b⟩; · simp at h
  rcases b with _ | ⟨b3, rest⟩; · simp at h
  simp only [detectImageMime, pngSig, jpegSig, gifSig, riffSig, List.length_cons,
    Bool.and_eq_true, beq_iff_eq, Bool.and_eq_false_iff, beq_eq_false_iff_ne, ne_eq]
  rw [if_neg (by omega)]
  refine ⟨fun hs => ?_, fun hs => ?_, fun hs => ?_, fun hs => ?_,
    fun n1 n2 n3 n4 => ?_⟩
  · obtain ⟨⟨⟨e0, e1⟩, e2⟩, e3⟩ := hs
    rw [if_pos ⟨e0, e1, e2, e3⟩]
  · obtain ⟨⟨e0, e1⟩, e2⟩ := hs
    rw [if_neg (by omega), if_pos ⟨e0, e1, e2⟩]
  · obtain ⟨⟨e0, e1⟩, e2⟩ := hs
    rw [if_neg (by omega), if_neg (by omega), if_pos ⟨e0, e1, e2⟩]
  · obtain ⟨⟨⟨e0, e1⟩, e2⟩, e3⟩ := hs
    rw [if_neg (by omega), if_neg (by omega), if_neg (by omega),
      if_pos ⟨e0, e1, e2, e3⟩]
  · rw [if_neg (by tauto), if_neg (by tauto), if_neg (by tauto), if_neg (by tauto)]

/-- C5 witness: a RIFF-headed buffer of 5 bytes is sniffed as WEBP. -/
theorem C5_mime_signatures_witness :
    4 ≤ ([0x52, 0x49, 0x46, 0x46, 0x10] : List Nat).length ∧
    detectImageMime [0x52, 0x49, 0x46, 0x46, 0x10] = "image/webp" :=
  ⟨by decide, (C5_mime_signatures _ (by decide)).2.2.2.1 (by decide)⟩

/-- C3 counterexample: the first upload candidate returns a success HTTP
status but a body with no extractable URL; probing does not stop there — on
its own the candidate list is exhausted, and with a second candidate
appended the probe invokes it and returns its URL. -/
theorem C3_counterexample :
    probeUploadCandidates [.resp true ⟨none, emptyUploadRespData⟩] = none ∧
    probeUploadCandidates [.resp true ⟨none, emptyUploadRespData⟩,
      .resp true ⟨some { emptyUploadRespData with url := some "u" },
        emptyUploadRespData⟩] = some "u" := by
  constructor <;> decide

/-- C3 (amended): both probing loops stop at the first candidate whose call
returns a success status AND whose response yields an extractable field (a
hosted URL for upload, a task id for image generation); candidates that
throw, return a non-success status, or return success without the field are
skipped, and no candidate after the first extractable one influences the
result. -/
theorem C3_probe_first_extractable :
    (∀ (xs ys : List UploadAttempt) (a : UploadAttempt) (u : String),
        uploadAttemptResult a = some u →
        (∀ b ∈ xs, uploadAttemptResult b = none) →
        probeUploadCandidates (xs ++ a :: ys) = some u)
    ∧ (∀ (xs ys : List GenAttempt) (a : GenAttempt) (tid : String),
        genAttemptResult a = some tid →
        (∀ b ∈ xs, genAttemptResult b = none) →
        probeImageGenerate (xs ++ a :: ys) = some tid) := by
  constructor
  · intro xs ys a u ha hxs
    induction xs with
    | nil =>
      rw [List.nil_append, probeUploadCandidates_cons, ha]
    | cons b xs ih =>
      rw [List.cons_append, probeUploadCandidates_cons,
        hxs b (List.mem_cons_self b xs)]
      exact ih (fun b' hb' => hxs b' (List.mem_cons_of_mem b hb'))
  · intro xs ys a tid ha hxs
    induction xs with
    | nil =>
      rw [List.nil_append, probeImageGenerate_cons, ha]
    | cons b xs ih =>
      rw [List.cons_append, probeImageGenerate_cons,
        hxs b (List.mem_cons_self b xs)]
      exact ih (fun b' hb' => hxs b' (List.mem_cons_of_mem b hb'))

/-- C3 witness: the amended theorem applied to concrete candidate lists — a
throwing candidate, a non-success candidate and a success-without-field
candidate are all skipped, the fourth candidate serves, and a trailing
candidate is irrelevant. -/
theorem C3_probe_first_extractable_witness :
    probeUploadCandidates [.throwErr, .resp false ⟨none, emptyUploadRespData⟩,
      .resp true ⟨none, emptyUploadRespData⟩,
      .resp true ⟨some { emptyUploadRespData with fileUrl := some "https://u" },
        emptyUploadRespData⟩,
      .resp true ⟨some { emptyUploadRespData with url := some "https://other" },
        emptyUploadRespData⟩] = some "https://u" ∧
    probeImageGenerate [.throwErr, .resp true ⟨none, none, none⟩,
      .resp true ⟨some ⟨some "tid", none⟩, none, none⟩,
      .resp true ⟨some ⟨some "tid2", none⟩, none, none⟩] = some "tid" :=
  ⟨C3_probe_first_extractable.1
      [.throwErr, .resp false ⟨none, emptyUploadRespData⟩,
        .resp true ⟨none, emptyUploadRespData⟩]
      [.resp true ⟨some { emptyUploadRespData with url := some "https://other" },
        emptyUploadRespData⟩]
      (.resp true ⟨some { emptyUploadRespData with fileUrl := some "https://u" },
        emptyUploadRespData⟩)
      "https://u" (by decide) (by decide),
    C3_probe_first_extractable.2
      [.throwErr, .resp true ⟨none, none, none⟩]
      [.resp true ⟨some ⟨some "tid2", none⟩, none, none⟩]
      (.resp true ⟨some ⟨some "tid", none⟩, none, none⟩)
      "tid" (by decide) (by decide)⟩

/-- C4 counterexample: an authenticated request with no inline images and no
`responseModalities` whose model id contains `"image"` does not take the
local-expansion path — the handler heads into the upstream image-generation
flow (uploads/job creation), so the claim's "responseModalities absent plus
no images implies local text" is false as stated. -/
theorem C4_counterexample :
    generateContentHandler (some "Bearer k") none "gemini-2.5-flash-image" ⟨[], none⟩ =
      .upstreamImage "" [] 1 ∧
    ∀ t, generateContentHandler (some "Bearer k") none "gemini-2.5-flash-image"
      ⟨[], none⟩ ≠ .localText t := by
  have h : generateContentHandler (some "Bearer k") none "gemini-2.5-flash-image"
      ⟨[], none⟩ = .upstreamImage "" [] 1 := by decide
  exact ⟨h, fun t ht => by rw [h] at ht; exact GenOutcome.noConfusion ht⟩


/-- C4 (amended): an authenticated generate-content request with no inline
images, with `generationConfig.responseModalities` absent, AND whose model
id does not contain `"image"` (case-insensitively) takes the local path: no
upstream call, and the single text candidate is exactly the deterministic
local expansion (`simplePromptPolish`) of the concatenated prompt text. -/
theorem C4_text_only_local_polish (authHeader keyParam : Option String)
    (modelId : String) (body : GenBody)
    (hauth : getApiKeyFromReq authHeader keyParam ≠ "")
    (himg : geminiImages body = [])
    (hrm : body.generationConfig.bind (fun g => g.responseModalities) = none)
    (hmid : strContains (strLower modelId) "image" = false) :
    generateContentHandler authHeader keyParam modelId body =
      .localText (simplePromptPolish (extractGeminiTextAndInlineImages body).1) := by
  simp only [generateContentHandler, extractGeminiTextAndInlineImages]
  rw [if_neg hauth]
  simp only [himg, hrm, hmid, Option.getD_none]
  simp only [List.contains, List.elem_nil, Bool.false_or]
  rw [if_pos (by simp)]
  rw [polish_fallback]

/-- C4 witness: a bearer-authenticated text-only request against a non-image
model returns the local expansion of its prompt. -/
theorem C4_text_only_local_polish_witness :
    generateContentHandler (some "Bearer k") none "gemini-pro"
      ⟨[⟨[⟨some "a cat", none, none⟩]⟩], none⟩ =
      .localText (simplePromptPolish "a cat") := by
  have h := C4_text_only_local_polish (some "Bearer k") none "gemini-pro"
    ⟨[⟨[⟨some "a cat", none, none⟩]⟩], none⟩ (by decide) (by decide) rfl (by decide)
  have h2 : (extractGeminiTextAndInlineImages
      ⟨[⟨[⟨some "a cat", none, none⟩]⟩], none⟩).1 = "a cat" := by decide
  rw [h2] at h
  exact h

/-- C6 (confirmed): the image2video job input always carries the hard-coded
aspect ratio `16:9` — also at the handler level, any input that reaches the
upstream create-task call does — while the text2video input derives its
aspect ratio from the caller's `aspect_ratio` field, which genuinely varies
(e.g. `9:16` maps to `9:16`). -/
theorem C6_kling_aspect_ratio :
    (∀ (body : KlingImageBody) (fileUrl : String),
        (klingImage2VideoInput body fileUrl).aspect_ratio = "16:9")
    ∧ (∀ (authHeader : Option String) (body : KlingImageBody)
        (uploadOracle createOracle : Except String String) (i : KlingInput),
        (klingImage2VideoHandler authHeader body uploadOracle createOracle).2.2 = some i →
        i.aspect_ratio = "16:9")
    ∧ (∀ body2 : KlingTextBody,
        (klingText2VideoInput body2).aspect_ratio = mapAspectRatio body2.aspect_ratio)
    ∧ mapAspectRatio (some "9:16") = "9:16" := by
  refine ⟨fun body fileUrl => rfl, ?_, fun body2 => rfl, by decide⟩
  intro authHeader body uploadOracle createOracle i hi
  simp only [klingImage2VideoHandler] at hi
  by_cases hk : getBearerToken authHeader = ""
  · rw [if_pos hk] at hi; exact absurd hi (by simp)
  · rw [if_neg hk] at hi
    by_cases hb : strTrim (jsStringOr body.image "") = ""
    · rw [if_pos hb] at hi; exact absurd hi (by simp)
    · rw [if_neg hb] at hi
      cases uploadOracle with
      | error e => exact absurd hi (by simp)
      | ok fileUrl =>
        cases createOracle with
        | ok tid =>
          simp only [Option.some_inj] at hi
          rw [← hi]
          rfl
        | error e =>
          simp only [Option.some_inj] at hi
          rw [← hi]
          rfl

/-- C6 witness: a concrete authenticated image2video request whose caller
supplies `aspect_ratio = "9:16"` still submits `16:9` upstream. -/
theorem C6_kling_aspect_ratio_witness :
    (klingImage2VideoHandler (some "Bearer k")
        ⟨some "p", some "9:16", some "5", some "QUJD"⟩
        (.ok "https://u") (.ok "tid")).2.2 =
      some (klingImage2VideoInput ⟨some "p", some "9:16", some "5", some "QUJD"⟩
        "https://u") ∧
    (klingImage2VideoInput ⟨some "p", some "9:16", some "5", some "QUJD"⟩
        "https://u").aspect_ratio = "16:9" :=
  ⟨by decide, C6_kling_aspect_ratio.2.1 (some "Bearer k")
      ⟨some "p", some "9:16", some "5", some "QUJD"⟩
      (.ok "https://u") (.ok "tid") _ (by decide)⟩

/-- C7 (confirmed): against a fetcher that never leaves the pending state,
the synchronous wait engine ends in `timeout` (a `WaitResult` constructor
distinct from `jobFailed`); while the elapsed time is within the budget it
keeps polling, advancing by the configured interval, and once the elapsed
time reaches the budget it stops with `timeout`. -/
theorem C7_wait_timeout (fetch : Nat → KieJson) (budget interval : Nat)
    (hpos : 0 < interval)
    (hpending : ∀ t, normalizeKieStatusToSimple (fetch t) = .processing) :
    waitForKieImageResult fetch budget interval hpos = .timeout
    ∧ (∀ t, t < budget → waitAux fetch budget interval hpos t =
        waitAux fetch budget interval hpos (t + interval))
    ∧ (∀ t, ¬ t < budget → waitAux fetch budget interval hpos t = .timeout) := by
  refine ⟨waitAux_pending fetch budget interval hpos hpending 0, ?_, ?_⟩
  · intro t ht
    conv_lhs => rw [waitAux]
    rw [dif_pos ht]
    simp only [hpending t]
  · intro t ht
    rw [waitAux, dif_neg ht]

/-- C7 witness: a constant-pending stub with budget 5 and interval 2 times
out. -/
theorem C7_wait_timeout_witness :
    (∀ t : Nat, normalizeKieStatusToSimple (pendingFetch t) = .processing) ∧
    waitForKieImageResult pendingFetch 5 2 (by decide) = .timeout :=
  have hp : ∀ t : Nat, normalizeKieStatusToSimple (pendingFetch t) = .processing :=
    fun _ => (by decide : normalizeKieStatusToSimple pendingStubJson = .processing)
  ⟨hp, (C7_wait_timeout pendingFetch 5 2 (by decide) hp).1⟩

/-- C8 (confirmed): on every modelled caller-facing surface, a request with
no bearer credential (and, for the multimodal surface, no `?key=` parameter
either) is answered with HTTP 401 while performing no upstream call and no
usage-ledger append — the effect trace is empty, and the multimodal handler
stops at its `unauthorized` outcome. -/
theorem C8_missing_credential_rejected (model : String) (hasFile : Bool)
    (veoOracle uploadOracle createOracle : Except String String)
    (taskId : String) (recordOracle : Except String KieJson)
    (textBody : KlingTextBody) (imageBody : KlingImageBody)
    (uploadOracle2 createOracle2 : Except String String)
    (modelId : String) (genBody : GenBody) (chatAttempts : List ChatAttempt) :
    v1VideosCreateHandler none model hasFile veoOracle uploadOracle createOracle =
      (401, [])
    ∧ v1VideosPollHandler none taskId recordOracle = (401, [])
    ∧ klingText2VideoHandler none textBody createOracle2 = (401, [], none)
    ∧ klingImage2VideoHandler none imageBody uploadOracle2 createOracle2 =
      (401, [], none)
    ∧ generateContentHandler none none modelId genBody = .unauthorized
    ∧ chatCompletionsHandler none chatAttempts = (401, []) :=
  ⟨rfl, rfl, rfl, rfl, rfl, rfl⟩

/-- C9 (confirmed): the usage ledger prepends each appended entry under the
credential hash and caps the stored list at 2000 (the only mutation the
ledger supports); appending 2001 entries for one credential leaves exactly
the 2000 most recent, most-recent-first — that is, the reverse of the input
minus its first (oldest) entry — so the oldest entry is silently evicted. -/
theorem C9_ledger_bounded_eviction {α : Type} (hash : String → String)
    (apiKey : String) (l : List α) (hk : apiKey ≠ "") (hlen : l.length = 2001) :
    (∀ (m : String → List α) (e : α),
        (pushUsageLog hash m apiKey e) (hash apiKey) = (e :: m (hash apiKey)).take 2000)
    ∧ (pushUsageLogs hash emptyUsageLogs apiKey l) (hash apiKey) = (l.drop 1).reverse
    ∧ ((pushUsageLogs hash emptyUsageLogs apiKey l) (hash apiKey)).length = 2000 := by
  have hmain : (pushUsageLogs hash emptyUsageLogs apiKey l) (hash apiKey) =
      (l.drop 1).reverse := by
    rw [pushUsageLogs_apply hash apiKey hk l emptyUsageLogs (by simp [emptyUsageLogs])]
    obtain ⟨a, t, rfl⟩ : ∃ a t, l = a :: t := by
      cases l with
      | nil => simp at hlen
      | cons a t => exact ⟨a, t, rfl⟩
    have ht : t.length = 2000 := by simpa using hlen
    simp only [emptyUsageLogs, List.append_nil, List.reverse_cons, List.drop_one,
      List.tail_cons]
    rw [List.take_append_eq_append_take,
      List.take_of_length_le (by simp [ht])]
    simp [ht]
  refine ⟨fun m e => pushUsageLog_apply hash m apiKey e hk, hmain, ?_⟩
  rw [hmain]
  have : (l.drop 1).length = 2000 := by simp [hlen]
  simpa using this

/-- C9 witness: appending the 2001 entries `0, …, 2000` for one credential
leaves the 2000 entries `2000, …, 1`, most-recent-first. -/
theorem C9_ledger_bounded_eviction_witness :
    (pushUsageLogs (fun s => s) emptyUsageLogs "k" (List.range 2001)) "k" =
      ((List.range 2001).drop 1).reverse :=
  (C9_ledger_bounded_eviction (fun s => s) "k" (List.range 2001)
    (by decide) (by simp)).2.1
